import Mathlib

/-!
Shallow embedding of the medusa-payment-yoco payment adapter
(src/services/yoco-payment.ts, src/types.ts).

The repository ships several revisions of the same service class; the
embedding below follows the newest revision (the one with Zod option
validation, idempotency keys and the YocoPaymentError taxonomy), which is
the revision the testable properties refer to.  The older revision's
status table (which sends "expired" to an error status instead of
"canceled") is embedded separately as mapStatusLegacy.

External HTTP calls are abstracted by an oracle parameter: each adapter
method takes the result the provider API would return
(an Except YocoPaymentError value, matching the api helper which either
returns the parsed body or throws a YocoPaymentError).  Every method also
returns a Bool recording whether the external call was reached, so that
claims about "no external call is made" are statable.

JavaScript session-data objects (Record<string, unknown>) are embedded as
association lists of string keys and JSON-like values; object spread
{...data, k: v} is embedded as setKey, which preserves the value of every
key other than k.  A missing (undefined) data object behaves exactly like
the empty map for every operation modelled here, so inputs carry a plain
SessionData.  Amounts are integer minor currency units (cents), as the
spec's data-model invariant states, so Math.round is the identity on them.
-/

namespace Yoco

/-- JSON-like values stored in the host's opaque session-data map. -/
inductive JsonVal where
  | str (s : String)
  | num (n : Int)
  | boolVal (b : Bool)
  | null
  deriving DecidableEq

/-- Session data: the host-owned opaque key-value map. -/
abbrev SessionData := List (String × JsonVal)

/-- Reading a property of a JavaScript object (undefined when absent). -/
def getKey (d : SessionData) (k : String) : Option JsonVal :=
  match d.find? (fun p => p.fst = k) with
  | some p => some p.snd
  | none => none

/-- Object spread {...d, k: v}: every other key keeps its value, k is set to v. -/
def setKey (d : SessionData) (k : String) (v : JsonVal) : SessionData :=
  d.filter (fun p => p.fst ≠ k) ++ [(k, v)]

/-- JavaScript truthiness of a stored value. -/
def truthy : JsonVal → Bool
  | .str s => s ≠ ""
  | .num n => n ≠ 0
  | .boolVal b => b
  | .null => false

/-- The stored checkout id: data.yocoCheckoutId followed by the falsiness
check if (!id) that every method performs.  Returns some v exactly when
the property is present and truthy. -/
def storedCheckoutId (d : SessionData) : Option JsonVal :=
  match getKey d "yocoCheckoutId" with
  | some v => if truthy v then some v else none
  | none => none

/-- The external checkout resource (interface YocoCheckout in src/types.ts). -/
structure YocoCheckout where
  id : String
  redirectUrl : String
  status : String
  amount : Int
  currency : String
  paymentId : Option String
  deriving DecidableEq

/-- The external refund resource (interface YocoRefund, plus the optional
refunded amount the newest revision reads). -/
structure YocoRefund where
  id : String
  refundId : String
  message : String
  status : String
  amount : Option Int
  deriving DecidableEq

/-- Error codes of the adapter's error taxonomy (enum YocoErrorCode).  The
enum itself is imported from ../types by the newest service revision; the
list of members is taken from the spec's error-handling design (mapped
provider codes plus generic API, network and processing codes). -/
inductive YocoErrorCode where
  | CARD_DECLINED
  | INSUFFICIENT_FUNDS
  | FRAUD_DETECTED
  | EXPIRED_CARD
  | INVALID_CVV
  | LIMIT_EXCEEDED
  | API_ERROR
  | NETWORK_ERROR
  | PROCESSING_ERROR
  deriving DecidableEq

/-- The provider's error body (interface YocoError in src/types.ts). -/
structure YocoError where
  errorCode : String
  errorMessage : String
  displayMessage : Option String
  deriving DecidableEq

/-- The adapter's normalized error (class YocoPaymentError): a message and
a mapped code. -/
structure YocoPaymentError where
  message : String
  code : YocoErrorCode
  deriving DecidableEq

/-- Modelled from the spec: the provider-code table of
YocoPaymentError.fromYocoError.  The class is imported from ../types but
its definition is not in src/; the spec's error-handling design lists the
mapped codes (card declined, insufficient funds, fraud detected, expired
card, invalid CVV, limit exceeded) "falling back to a generic API-error
code for unrecognized provider codes". -/
def mapYocoErrorCode (c : String) : YocoErrorCode :=
  if c = "card_declined" then .CARD_DECLINED
  else if c = "insufficient_funds" then .INSUFFICIENT_FUNDS
  else if c = "fraud_detected" then .FRAUD_DETECTED
  else if c = "expired_card" then .EXPIRED_CARD
  else if c = "invalid_cvv" then .INVALID_CVV
  else if c = "limit_exceeded" then .LIMIT_EXCEEDED
  else .API_ERROR

/-- Modelled from the spec: YocoPaymentError.fromYocoError — the message is
the display message, falling back to the raw error message when the display
message is missing; the code is the mapped provider code. -/
def YocoPaymentError.fromYocoError (e : YocoError) : YocoPaymentError :=
  { message :=
      match e.displayMessage with
      | some s => s
      | none => e.errorMessage
    code := mapYocoErrorCode e.errorCode }

/-- Statuses delivered by the newest revision's mapStatus. -/
inductive MappedStatus where
  | authorized
  | captured
  | canceled
  | pending
  deriving DecidableEq

/-- The newest revision's status table (yoco-payment.ts, mapStatus):
completed to authorized, cancelled to canceled, expired to canceled,
anything else to pending. -/
def mapStatus (status : String) : MappedStatus :=
  if status = "completed" then .authorized
  else if status = "cancelled" then .canceled
  else if status = "expired" then .canceled
  else .pending

/-- The host platform's payment-session status enum used by the oldest
revision. -/
inductive PaymentSessionStatus where
  | AUTHORIZED
  | CAPTURED
  | CANCELED
  | PENDING
  | ERROR
  deriving DecidableEq

/-- The oldest revision's status table (same file, first revision): the
only difference is expired to ERROR. -/
def mapStatusLegacy (status : String) : PaymentSessionStatus :=
  if status = "completed" then .AUTHORIZED
  else if status = "cancelled" then .CANCELED
  else if status = "expired" then .ERROR
  else .PENDING

/-- Raw provider options as the host hands them over (interface
YocoOptions; the redirect URLs appear in the newest revision and in the
spec's configuration surface).  secretKey is optional here because the
constructor must reject a missing key. -/
structure YocoOptions where
  secretKey : Option String
  debug : Option Bool
  successUrl : Option String
  cancelUrl : Option String
  failureUrl : Option String
  deriving DecidableEq

/-- String startsWith, computed on the character lists. -/
def strStartsWith (p s : String) : Bool :=
  p.data.isPrefixOf s.data

/-- Modelled from the spec: the secret-key format check of
YocoOptionsSchema (key prefixed sk_test_ or sk_live_). -/
def hasValidKeyFormat (k : String) : Bool :=
  strStartsWith "sk_test_" k || strStartsWith "sk_live_" k

/-- Modelled from the spec: the URL-format check of YocoOptionsSchema for
the optional redirect URLs (HTTP(S) URLs such as
https://example.com/success; a bare word such as not-a-url is rejected). -/
def isValidUrlFormat (u : String) : Bool :=
  strStartsWith "https://" u || strStartsWith "http://" u

/-- Modelled from the spec: YocoOptionsSchema.safeParse success flag.  The
Zod schema is imported from ../types but its definition is not in src/;
per the spec the key is required and prefix-validated and each redirect
URL, when present, must be URL-formatted. -/
def safeParseOk (o : YocoOptions) : Bool :=
  (match o.secretKey with
   | some k => hasValidKeyFormat k
   | none => false)
  && (match o.successUrl with
      | some u => isValidUrlFormat u
      | none => true)
  && (match o.cancelUrl with
      | some u => isValidUrlFormat u
      | none => true)
  && (match o.failureUrl with
      | some u => isValidUrlFormat u
      | none => true)

/-- The newest revision's constructor: validate the options with the Zod
schema, throwing a configuration error when validation fails, and store
the validated options (immutable thereafter). -/
def constructService (o : YocoOptions) : Except String YocoOptions :=
  if safeParseOk o then .ok o
  else .error "[Yoco] Configuration validation failed"

/-- Loosely-typed request context carrying the host identifiers. -/
structure PaymentContext where
  session_id : Option String
  resource_id : Option String
  deriving DecidableEq

/-- JavaScript (x || "") on an optional string. -/
def orEmptyStr (o : Option String) : String :=
  match o with
  | some s => s
  | none => ""

/-- Input of initiatePayment (amount, currency_code, context). -/
structure InitiatePaymentInput where
  amount : Int
  currency_code : String
  context : Option PaymentContext
  deriving DecidableEq

/-- Output of initiatePayment: the checkout id and the fresh session data. -/
structure InitiatePaymentOutput where
  id : String
  data : SessionData
  deriving DecidableEq

/-- Output shape { data } shared by update, capture, refund, cancel and
delete. -/
structure PaymentDataOutput where
  data : SessionData
  deriving DecidableEq

/-- String.toUpperCase (ASCII, which covers currency codes), computed on
the character list. -/
def toUpperCase (s : String) : String := (s.data.map Char.toUpper).asString

/-- The idempotency key derived at yoco-payment.ts line 401:
initiate-sessionId-resourceId-amountInCents.  The amount is rendered in
decimal; at the derivation point it has already passed the minimum-amount
check, hence the Nat argument. -/
def initiateIdempotencyKey (sessionId resourceId : String) (amountInCents : Nat) : String :=
  "initiate-" ++ sessionId ++ "-" ++ resourceId ++ "-" ++ toString amountInCents

/-- initiatePayment of the newest revision.  Validation errors and
provider errors are all thrown as YocoPaymentError and rewrapped by the
catch block into an Error prefixed with [Yoco]; the Bool records whether
the external create-checkout call was reached. -/
def initiatePayment (input : InitiatePaymentInput)
    (apiResult : Except YocoPaymentError YocoCheckout) :
    Except String InitiatePaymentOutput × Bool :=
  let amountInCents := input.amount
  if amountInCents < 200 then
    (.error "[Yoco] Minimum amount is R2.00", false)
  else if toUpperCase input.currency_code ≠ "ZAR" then
    (.error "[Yoco] Only ZAR currency is supported", false)
  else
    let sessionId := orEmptyStr (input.context.bind (fun c => c.session_id))
    let resourceId := orEmptyStr (input.context.bind (fun c => c.resource_id))
    let _key := initiateIdempotencyKey sessionId resourceId amountInCents.toNat
    match apiResult with
    | .ok checkout =>
        (.ok { id := checkout.id
               data := [("yocoCheckoutId", .str checkout.id),
                        ("redirectUrl", .str checkout.redirectUrl),
                        ("status", .str checkout.status)] }, true)
    | .error e => (.error ("[Yoco] " ++ e.message), true)

/-- Input of updatePayment: same fields as initiate plus the existing
session data (which the body never reads). -/
structure UpdatePaymentInput where
  amount : Int
  currency_code : String
  context : Option PaymentContext
  data : SessionData
  deriving DecidableEq

/-- updatePayment of the newest revision: re-validates and re-creates the
checkout (no idempotency key) and returns a fresh data map holding only
the provider fields; every error is wrapped as a failed-to-update Error. -/
def updatePayment (input : UpdatePaymentInput)
    (apiResult : Except YocoPaymentError YocoCheckout) :
    Except String PaymentDataOutput × Bool :=
  let amountInCents := input.amount
  if amountInCents < 200 then
    (.error "[Yoco] Failed to update payment: Minimum amount is R2.00", false)
  else if toUpperCase input.currency_code ≠ "ZAR" then
    (.error "[Yoco] Failed to update payment: Only ZAR currency supported", false)
  else
    match apiResult with
    | .ok checkout =>
        (.ok { data := [("yocoCheckoutId", .str checkout.id),
                        ("redirectUrl", .str checkout.redirectUrl),
                        ("status", .str checkout.status)] }, true)
    | .error e => (.error ("[Yoco] Failed to update payment: " ++ e.message), true)

/-- deletePayment: pure passthrough of the session data. -/
def deletePayment (data : SessionData) : PaymentDataOutput :=
  { data := data }

/-- Output of getPaymentStatus. -/
structure GetPaymentStatusOutput where
  status : MappedStatus
  deriving DecidableEq

/-- getPaymentStatus of the newest revision: a missing checkout id yields
pending without touching the API, and a failed fetch is swallowed into
pending; the Bool records whether the fetch was reached. -/
def getPaymentStatus (data : SessionData)
    (apiResult : Except YocoPaymentError YocoCheckout) :
    GetPaymentStatusOutput × Bool :=
  match storedCheckoutId data with
  | none => ({ status := .pending }, false)
  | some _ =>
    match apiResult with
    | .ok checkout => ({ status := mapStatus checkout.status }, true)
    | .error _ => ({ status := .pending }, true)

/-- Rendering a nullable provider field into the session data. -/
def jsonOfOptStr (o : Option String) : JsonVal :=
  match o with
  | some s => .str s
  | none => .null

/-- Output of authorizePayment. -/
structure AuthorizePaymentOutput where
  status : MappedStatus
  data : SessionData
  deriving DecidableEq

/-- authorizePayment of the newest revision: fetches the checkout with the
stored id (whatever it is — no missing-id check), maps the status and
attaches yocoPaymentId on top of the existing data; fetch failures are
wrapped and propagated. -/
def authorizePayment (data : SessionData)
    (apiResult : Except YocoPaymentError YocoCheckout) :
    Except String AuthorizePaymentOutput × Bool :=
  match apiResult with
  | .ok checkout =>
      (.ok { status := mapStatus checkout.status
             data := setKey data "yocoPaymentId" (jsonOfOptStr checkout.paymentId) }, true)
  | .error e => (.error ("[Yoco] Failed to authorize payment: " ++ e.message), true)

/-- capturePayment of the newest revision: fetches the checkout (again
with no missing-id check), fails unless its status is completed, and on
success attaches yocoPaymentId and a capture timestamp. -/
def capturePayment (data : SessionData) (now : String)
    (apiResult : Except YocoPaymentError YocoCheckout) :
    Except String PaymentDataOutput × Bool :=
  match apiResult with
  | .ok checkout =>
    if checkout.status ≠ "completed" then
      (.error ("[Yoco] Failed to capture payment: Payment not completed: " ++ checkout.status),
       true)
    else
      (.ok { data := setKey (setKey data "yocoPaymentId" (jsonOfOptStr checkout.paymentId))
                       "capturedAt" (.str now) }, true)
  | .error e => (.error ("[Yoco] Failed to capture payment: " ++ e.message), true)

/-- Errors escaping refundPayment: the pre-try missing-id throw escapes as
a YocoPaymentError, everything raised inside the try block is rewrapped by
the catch into a plain Error. -/
inductive ThrownErr where
  | yocoErr (e : YocoPaymentError)
  | plainErr (msg : String)
  deriving DecidableEq

/-- JavaScript truthiness of the optional refund amount: input.amount is
used only when present and nonzero. -/
def refundAmountOf (amount : Option Int) : Option Int :=
  match amount with
  | some a => if a = 0 then none else some a
  | none => none

/-- The value stored under refundedAmount: refund.amount || refundAmount. -/
def refundedAmountVal (refund : YocoRefund) (refundAmount : Option Int) : JsonVal :=
  match refund.amount with
  | some a =>
    if a = 0 then
      match refundAmount with
      | some b => .num b
      | none => .null
    else .num a
  | none =>
    match refundAmount with
    | some b => .num b
    | none => .null

/-- refundPayment of the newest revision: throws before any external call
when no checkout id is stored; otherwise derives a fresh idempotency key
(uuid is the random suffix), issues the refund, fails unless the returned
status is successful, and on success attaches refund id, refunded amount
and timestamp on top of the existing data. -/
def refundPayment (data : SessionData) (amount : Option Int) (uuid now : String)
    (apiResult : Except YocoPaymentError YocoRefund) :
    Except ThrownErr PaymentDataOutput × Bool :=
  let refundAmount := refundAmountOf amount
  match storedCheckoutId data with
  | none =>
      (.error (.yocoErr { message := "[Yoco] No checkout ID provided for refund"
                          code := .API_ERROR }), false)
  | some _ =>
    let _key :=
      match refundAmount with
      | some a => "refund-" ++ toString a ++ "-" ++ uuid
      | none => "refund-full-" ++ uuid
    match apiResult with
    | .ok refund =>
      if refund.status ≠ "successful" then
        (.error (.plainErr ("[Yoco] " ++ refund.message)), true)
      else
        (.ok { data := setKey (setKey (setKey data
                 "yocoRefundId" (.str refund.refundId))
                 "refundedAmount" (refundedAmountVal refund refundAmount))
                 "refundedAt" (.str now) }, true)
    | .error e => (.error (.plainErr ("[Yoco] " ++ e.message)), true)

/-- cancelPayment: pure local operation stamping a cancellation timestamp
onto the session data; no external call exists to model. -/
def cancelPayment (data : SessionData) (now : String) : PaymentDataOutput :=
  { data := setKey data "cancelledAt" (.str now) }

/-- retrievePayment of the newest revision: returns the data unchanged
when no checkout id is stored, otherwise mirrors checkout status and
payment id into the data. -/
def retrievePayment (data : SessionData)
    (apiResult : Except YocoPaymentError YocoCheckout) :
    Except String PaymentDataOutput × Bool :=
  match storedCheckoutId data with
  | none => (.ok { data := data }, false)
  | some _ =>
    match apiResult with
    | .ok checkout =>
        (.ok { data := setKey (setKey data "yocoStatus" (.str checkout.status))
                 "yocoPaymentId" (jsonOfOptStr checkout.paymentId) }, true)
    | .error e => (.error ("[Yoco] Failed to retrieve payment: " ++ e.message), true)

/-- Payload carried by a delivered webhook event (interface
YocoWebhookEvent.payload). -/
structure YocoWebhookPayloadData where
  id : String
  status : String
  amount : Int
  currency : String
  metadata : Option SessionData
  deriving DecidableEq

/-- A delivered webhook event.  The event type is kept as a raw string
because the handler receives an untyped payload and must classify
arbitrary type strings. -/
structure YocoWebhookEvent where
  id : String
  type : String
  createdDate : String
  payload : YocoWebhookPayloadData
  deriving DecidableEq

/-- Actions reported back to the host for a webhook event. -/
inductive WebhookAction where
  | authorized
  | failed
  | not_supported
  deriving DecidableEq

/-- Data attached to an authorized or failed webhook action. -/
structure WebhookActionData where
  session_id : JsonVal
  amount : Int
  deriving DecidableEq

/-- Result of getWebhookActionAndData. -/
structure WebhookActionResult where
  action : WebhookAction
  data : Option WebhookActionData
  deriving DecidableEq

/-- The session id extracted from the event metadata:
(event.payload.metadata?.session_id as string) || "". -/
def webhookSessionId (event : YocoWebhookEvent) : JsonVal :=
  match event.payload.metadata with
  | some m =>
    match getKey m "session_id" with
    | some v => if truthy v then v else .str ""
    | none => .str ""
  | none => .str ""

/-- getWebhookActionAndData: classify the event by its type string;
payment.succeeded yields an authorized action and payment.failed a failed
action, both carrying the session id from the metadata and the amount
from the event payload; every other type is not supported. -/
def getWebhookActionAndData (event : YocoWebhookEvent) : WebhookActionResult :=
  if event.type = "payment.succeeded" then
    { action := .authorized
      data := some { session_id := webhookSessionId event, amount := event.payload.amount } }
  else if event.type = "payment.failed" then
    { action := .failed
      data := some { session_id := webhookSessionId event, amount := event.payload.amount } }
  else
    { action := .not_supported, data := none }

/-- Decimal digit list of a natural number, most significant first: the
reference function used to reason about Nat.repr. -/
def natDigits (n : Nat) : List Char :=
  if n < 10 then [Nat.digitChar n]
  else natDigits (n / 10) ++ [Nat.digitChar (n % 10)]
decreasing_by
  exact Nat.div_lt_self (by omega) (by omega)

/-- Numeric value of a decimal digit character. -/
def digitVal (c : Char) : Nat := c.toNat - 48

/-- Value of a digit list, most significant first. -/
def digitsVal (l : List Char) : Nat :=
  l.foldl (fun a c => 10 * a + digitVal c) 0

/-! Concrete sample values used by the testable properties (taken from
the repository's test suite). -/

/-- Valid options: the test key with no redirect URLs. -/
def optsValid : YocoOptions :=
  { secretKey := some "sk_test_1234567890", debug := none,
    successUrl := none, cancelUrl := none, failureUrl := none }

/-- Options with the malformed key of the test suite. -/
def optsBadKey : YocoOptions :=
  { secretKey := some "invalid_key", debug := none,
    successUrl := none, cancelUrl := none, failureUrl := none }

/-- Options with a success URL that is not a URL. -/
def optsBadUrl : YocoOptions :=
  { secretKey := some "sk_test_1234567890", debug := none,
    successUrl := some "not-a-url", cancelUrl := none, failureUrl := none }

/-- Options with a well-formed success URL. -/
def optsGoodUrl : YocoOptions :=
  { secretKey := some "sk_test_1234567890", debug := none,
    successUrl := some "https://example.com/success", cancelUrl := none,
    failureUrl := none }

/-- A freshly created checkout as the provider would return it. -/
def sampleCheckout : YocoCheckout :=
  { id := "co1", redirectUrl := "r", status := "created", amount := 200,
    currency := "ZAR", paymentId := none }

/-- A completed checkout carrying a payment id. -/
def completedCheckout : YocoCheckout :=
  { id := "co1", redirectUrl := "r", status := "completed", amount := 200,
    currency := "ZAR", paymentId := some "pay_1" }

/-- A network failure as the api helper normalizes it. -/
def netErr : YocoPaymentError :=
  { message := "down", code := .NETWORK_ERROR }

/-- A successful refund resource. -/
def sampleRefund : YocoRefund :=
  { id := "r1", refundId := "rf1", message := "", status := "successful",
    amount := none }

/-- A session-data map holding only a host-owned key. -/
def fooData : SessionData := [("foo", .str "bar")]

/-- A delivered payment.succeeded event carrying a metadata session id. -/
def sampleEvent : YocoWebhookEvent :=
  { id := "evt_1", type := "payment.succeeded", createdDate := "2024-01-01",
    payload := { id := "p_1", status := "succeeded", amount := 500,
                 currency := "ZAR",
                 metadata := some [("session_id", .str "sess_1")] } }

end Yoco

deriving instance DecidableEq for Except

namespace Yoco

/-! Helper lemmas about the session-data map. -/

theorem getKey_cons (p : String × JsonVal) (t : SessionData) (k : String) :
    getKey (p :: t) k = if p.fst = k then some p.snd else getKey t k := by
  by_cases h : p.fst = k <;> simp [getKey, List.find?, h]

theorem getKey_setKey_ne (d : SessionData) (k k' : String) (v : JsonVal)
    (h : k' ≠ k) : getKey (setKey d k v) k' = getKey d k' := by
  induction d with
  | nil =>
    rw [show setKey [] k v = [(k, v)] from rfl, getKey_cons]
    simp [Ne.symm h, getKey]
  | cons p t ih =>
    by_cases hp : p.fst = k
    · have hs : setKey (p :: t) k v = setKey t k v := by
        simp [setKey, List.filter_cons, hp]
      have hne : p.fst ≠ k' := by rw [hp]; exact Ne.symm h
      rw [hs, ih, getKey_cons, if_neg hne]
    · have hs : setKey (p :: t) k v = p :: setKey t k v := by
        simp [setKey, List.filter_cons, hp]
      rw [hs, getKey_cons, getKey_cons, ih]

/-! Helper lemmas about decimal digit strings, used to reason about the
idempotency key: Nat.repr agrees with the reference function natDigits,
whose value round-trips, hence Nat.repr is injective. -/

theorem natDigits_eq_toDigitsCore (f : Nat) :
    ∀ (n : Nat) (ds : List Char), 0 < f → n < 10 ^ f →
    Nat.toDigitsCore 10 f n ds = natDigits n ++ ds := by
  induction f with
  | zero => intro n ds h; omega
  | succ f ih =>
    intro n ds _ hlt
    by_cases hdiv : n / 10 = 0
    · have hn : n < 10 := by omega
      rw [natDigits]
      simp [Nat.toDigitsCore, hdiv, hn, Nat.mod_eq_of_lt hn]
    · have hn : ¬ n < 10 := by omega
      have hf : 0 < f := by
        rcases Nat.eq_zero_or_pos f with hf0 | hf0
        · subst hf0; simp at hlt; omega
        · exact hf0
      have hlt' : n / 10 < 10 ^ f := by
        rw [Nat.div_lt_iff_lt_mul (by norm_num)]
        calc n < 10 ^ (f + 1) := hlt
        _ = 10 ^ f * 10 := by ring
      rw [natDigits]
      simp only [Nat.toDigitsCore, hdiv, if_neg hn, ite_false]
      rw [ih (n / 10) (Nat.digitChar (n % 10) :: ds) hf hlt']
      simp

theorem repr_data_eq_natDigits (n : Nat) : (Nat.repr n).data = natDigits n := by
  have hpow : n < 10 ^ (n + 1) := by
    calc n < 2 ^ n := Nat.lt_two_pow n
    _ ≤ 10 ^ n := Nat.pow_le_pow_left (by norm_num) n
    _ ≤ 10 ^ (n + 1) := Nat.pow_le_pow_right (by norm_num) (Nat.le_succ n)
  show (Nat.toDigits 10 n).asString.data = natDigits n
  rw [Nat.toDigits, natDigits_eq_toDigitsCore (n + 1) n [] (Nat.succ_pos n) hpow]
  simp [List.asString]

theorem digitVal_digitChar : ∀ n < 10, digitVal (Nat.digitChar n) = n := by decide

theorem digitsVal_natDigits (n : Nat) : digitsVal (natDigits n) = n := by
  induction n using Nat.strong_induction_on with
  | _ n ih =>
    rw [natDigits]
    by_cases hn : n < 10
    · simp [hn, digitsVal, digitVal_digitChar n hn]
    · have hd : n / 10 < n := Nat.div_lt_self (by omega) (by omega)
      simp only [hn, ite_false, digitsVal, List.foldl_append]
      rw [show List.foldl (fun a c => 10 * a + digitVal c) 0 (natDigits (n / 10)) =
            digitsVal (natDigits (n / 10)) from rfl]
      rw [ih (n / 10) hd]
      simp [digitVal_digitChar (n % 10) (Nat.mod_lt n (by omega))]
      omega

theorem repr_injective {m n : Nat} (h : Nat.repr m = Nat.repr n) : m = n := by
  have hdata : (Nat.repr m).data = (Nat.repr n).data := by rw [h]
  rw [repr_data_eq_natDigits, repr_data_eq_natDigits] at hdata
  calc m = digitsVal (natDigits m) := (digitsVal_natDigits m).symm
  _ = digitsVal (natDigits n) := by rw [hdata]
  _ = n := digitsVal_natDigits n

/-- Splitting a character list at a separator that occurs in neither head
segment is unambiguous. -/
theorem sep_split (c : Char) :
    ∀ (xs₁ : List Char) (xs₂ : List Char) (ys₁ ys₂ : List Char),
    c ∉ xs₁ → c ∉ xs₂ → xs₁ ++ c :: ys₁ = xs₂ ++ c :: ys₂ →
    xs₁ = xs₂ ∧ ys₁ = ys₂ := by
  intro xs₁
  induction xs₁ with
  | nil =>
    intro xs₂ ys₁ ys₂ _ h₂ h
    cases xs₂ with
    | nil => simpa using h
    | cons b bs =>
      simp only [List.nil_append, List.cons_append, List.cons.injEq] at h
      exact absurd (h.1 ▸ List.mem_cons_self b bs) (h.1 ▸ h₂)
  | cons a as ih =>
    intro xs₂ ys₁ ys₂ h₁ h₂ h
    cases xs₂ with
    | nil =>
      simp only [List.cons_append, List.nil_append, List.cons.injEq] at h
      exact absurd (h.1 ▸ List.mem_cons_self a as) (fun hc => h₁ (h.1 ▸ hc))
    | cons b bs =>
      simp only [List.cons_append, List.cons.injEq] at h
      have h₁' : c ∉ as := fun hc => h₁ (List.mem_cons_of_mem a hc)
      have h₂' : c ∉ bs := fun hc => h₂ (List.mem_cons_of_mem b hc)
      obtain ⟨heq, htl⟩ := ih bs ys₁ ys₂ h₁' h₂' h.2
      exact ⟨by rw [h.1, heq], htl⟩

/-- Character-list normal form of the idempotency key. -/
theorem initiateIdempotencyKey_data (s r : String) (a : Nat) :
    (initiateIdempotencyKey s r a).data =
    ('i' :: 'n' :: 'i' :: 't' :: 'i' :: 'a' :: 't' :: 'e' :: []) ++
      '-' :: (s.data ++ '-' :: (r.data ++ '-' :: (Nat.repr a).data)) := by
  show ("initiate-" ++ s ++ "-" ++ r ++ "-" ++ Nat.repr a).data = _
  simp only [String.data_append]
  simp [List.append_assoc]

/-- Uppercasing the literal ZAR is the identity. -/
theorem toUpperCase_ZAR : toUpperCase "ZAR" = "ZAR" := rfl

/-- C3: the checkout-status mapping is a pure function: completed maps to
authorized, cancelled to canceled, and any status outside the fixed table
maps to pending; on the status enumeration, created and pending map to
pending, and expired maps to canceled in the newest revision and to the
ERROR status in the oldest one. -/
theorem mapStatus_table (s : String) :
    mapStatus "completed" = .authorized
    ∧ mapStatus "cancelled" = .canceled
    ∧ (s ≠ "completed" → s ≠ "cancelled" → s ≠ "expired" → mapStatus s = .pending)
    ∧ mapStatus "created" = .pending
    ∧ mapStatus "pending" = .pending
    ∧ mapStatus "expired" = .canceled
    ∧ mapStatusLegacy "expired" = .ERROR := by
  refine ⟨by decide, by decide, ?_, by decide, by decide, by decide, by decide⟩
  intro h1 h2 h3
  simp [mapStatus, h1, h2, h3]

/-- Witness for C3: an arbitrary unknown status maps to pending. -/
theorem mapStatus_table_witness :
    ("created" : String) ≠ "completed" ∧ mapStatus "created" = .pending :=
  ⟨by decide, (mapStatus_table "created").2.2.1 (by decide) (by decide) (by decide)⟩

/-- C9: fromYocoError on the card-declined sample yields the display
message and code CARD_DECLINED; any provider code outside the recognized
table maps to API_ERROR; a missing display message falls back to the raw
error message. -/
theorem fromYocoError_spec (e : YocoError) :
    YocoPaymentError.fromYocoError
      { errorCode := "card_declined", errorMessage := "Card was declined",
        displayMessage := some "Your card was declined" } =
      { message := "Your card was declined", code := .CARD_DECLINED }
    ∧ (e.errorCode ≠ "card_declined" → e.errorCode ≠ "insufficient_funds" →
       e.errorCode ≠ "fraud_detected" → e.errorCode ≠ "expired_card" →
       e.errorCode ≠ "invalid_cvv" → e.errorCode ≠ "limit_exceeded" →
       (YocoPaymentError.fromYocoError e).code = .API_ERROR)
    ∧ (e.displayMessage = none →
       (YocoPaymentError.fromYocoError e).message = e.errorMessage) := by
  refine ⟨by decide, ?_, ?_⟩
  · intro h1 h2 h3 h4 h5 h6
    simp [YocoPaymentError.fromYocoError, mapYocoErrorCode, h1, h2, h3, h4, h5, h6]
  · intro h
    simp [YocoPaymentError.fromYocoError, h]

/-- Witness for C9: the unknown-code and missing-display-message sample of
the test suite. -/
theorem fromYocoError_spec_witness :
    (YocoPaymentError.fromYocoError
      { errorCode := "unknown_error", errorMessage := "Something went wrong",
        displayMessage := none }).code = .API_ERROR
    ∧ (YocoPaymentError.fromYocoError
      { errorCode := "unknown_error", errorMessage := "Something went wrong",
        displayMessage := none }).message = "Something went wrong" :=
  ⟨(fromYocoError_spec
      { errorCode := "unknown_error", errorMessage := "Something went wrong",
        displayMessage := none }).2.1
      (by decide) (by decide) (by decide) (by decide) (by decide) (by decide),
   (fromYocoError_spec
      { errorCode := "unknown_error", errorMessage := "Something went wrong",
        displayMessage := none }).2.2 rfl⟩

/-- C2: construction validates the configuration once and fails fast: a
missing secret key or one starting with neither sk_test_ nor sk_live_ is
rejected, the key sk_test_1234567890 is accepted, a successUrl of
not-a-url is rejected, and https://example.com/success is accepted. -/
theorem constructService_validation (o : YocoOptions) :
    (∀ k, o.secretKey = some k → strStartsWith "sk_test_" k = false →
       strStartsWith "sk_live_" k = false →
       constructService o = .error "[Yoco] Configuration validation failed")
    ∧ (o.secretKey = none →
       constructService o = .error "[Yoco] Configuration validation failed")
    ∧ constructService optsValid = .ok optsValid
    ∧ constructService optsBadUrl = .error "[Yoco] Configuration validation failed"
    ∧ constructService optsGoodUrl = .ok optsGoodUrl := by
  refine ⟨?_, ?_, by decide, by decide, by decide⟩
  · intro k hk h1 h2
    simp [constructService, safeParseOk, hk, hasValidKeyFormat, h1, h2]
  · intro h
    simp [constructService, safeParseOk, h]

/-- Witness for C2: the malformed key of the test suite is rejected. -/
theorem constructService_validation_witness :
    constructService optsBadKey = .error "[Yoco] Configuration validation failed" :=
  (constructService_validation optsBadKey).1 "invalid_key" rfl (by decide) (by decide)

/-- C8: webhook classification: payment.succeeded yields an authorized
action carrying the session id extracted from the event metadata and the
amount of the event payload, payment.failed yields a failed action with
the same extraction, and any other event type yields a not-supported
action with no data. -/
theorem webhook_classification (e : YocoWebhookEvent) :
    (e.type = "payment.succeeded" → getWebhookActionAndData e =
      { action := .authorized,
        data := some { session_id := webhookSessionId e, amount := e.payload.amount } })
    ∧ (e.type = "payment.failed" → getWebhookActionAndData e =
      { action := .failed,
        data := some { session_id := webhookSessionId e, amount := e.payload.amount } })
    ∧ (e.type ≠ "payment.succeeded" → e.type ≠ "payment.failed" →
       getWebhookActionAndData e = { action := .not_supported, data := none }) := by
  refine ⟨?_, ?_, ?_⟩
  · intro h; simp [getWebhookActionAndData, h]
  · intro h; simp [getWebhookActionAndData, h]
  · intro h1 h2; simp [getWebhookActionAndData, h1, h2]

/-- Witness for C8: a concrete succeeded event is classified as
authorized with its metadata session id and payload amount. -/
theorem webhook_classification_witness :
    getWebhookActionAndData sampleEvent =
    { action := .authorized,
      data := some { session_id := .str "sess_1", amount := 500 } } := by
  have h := (webhook_classification sampleEvent).1 rfl
  rw [h]
  decide

/-- C5: getPaymentStatus never propagates a failure: with no stored
checkout id it answers pending without reaching the external fetch, and
when the fetch fails the failure is swallowed into pending. -/
theorem getPaymentStatus_safe (d : SessionData)
    (api : Except YocoPaymentError YocoCheckout) :
    (storedCheckoutId d = none →
      getPaymentStatus d api = ({ status := .pending }, false))
    ∧ (∀ er, api = .error er →
      (getPaymentStatus d api).fst = { status := .pending }) := by
  constructor
  · intro h; simp [getPaymentStatus, h]
  · intro er h; subst h
    cases hid : storedCheckoutId d <;> simp [getPaymentStatus, hid]

/-- Witness for C5: the empty session data and a failing fetch. -/
theorem getPaymentStatus_safe_witness :
    getPaymentStatus [] (.error netErr) = ({ status := .pending }, false)
    ∧ (getPaymentStatus [("yocoCheckoutId", .str "co1")] (.error netErr)).fst =
      { status := .pending } :=
  ⟨(getPaymentStatus_safe [] (.error netErr)).1 rfl,
   (getPaymentStatus_safe [("yocoCheckoutId", .str "co1")] (.error netErr)).2
      netErr rfl⟩

/-- C6: refundPayment with no stored checkout id throws the missing-id
error before the external refund call is reached (the Bool is false), and
the input session data is untouched since the call produces no data. -/
theorem refundPayment_requires_id (d : SessionData) (amount : Option Int)
    (uuid now : String) (api : Except YocoPaymentError YocoRefund) :
    storedCheckoutId d = none →
    refundPayment d amount uuid now api =
      (.error (.yocoErr { message := "[Yoco] No checkout ID provided for refund",
                          code := .API_ERROR }), false) := by
  intro h
  simp [refundPayment, h]

/-- Witness for C6: a session-data map with no checkout id. -/
theorem refundPayment_requires_id_witness :
    refundPayment fooData none "uuid-1" "2024-01-01" (.ok sampleRefund) =
      (.error (.yocoErr { message := "[Yoco] No checkout ID provided for refund",
                          code := .API_ERROR }), false) :=
  refundPayment_requires_id fooData none "uuid-1" "2024-01-01" (.ok sampleRefund)
    (by decide)

/-- C10: capturePayment and authorizePayment perform no local missing-id
check: even with no stored checkout id the external fetch is reached, and
when it fails the outcome is the wrapped fetch error rather than a local
validation error. -/
theorem capture_authorize_no_local_check (d : SessionData) (now : String)
    (api : Except YocoPaymentError YocoCheckout) :
    storedCheckoutId d = none →
    (capturePayment d now api).snd = true
    ∧ (authorizePayment d api).snd = true
    ∧ (∀ er, api = .error er →
        (capturePayment d now api).fst =
          .error ("[Yoco] Failed to capture payment: " ++ er.message)
        ∧ (authorizePayment d api).fst =
          .error ("[Yoco] Failed to authorize payment: " ++ er.message)) := by
  intro _
  refine ⟨?_, ?_, ?_⟩
  · cases api with
    | ok c => by_cases hc : c.status = "completed" <;> simp [capturePayment, hc]
    | error e => simp [capturePayment]
  · cases api <;> simp [authorizePayment]
  · intro er h; subst h
    exact ⟨by simp [capturePayment], by simp [authorizePayment]⟩

/-- Witness for C10: empty session data with a failing fetch. -/
theorem capture_authorize_no_local_check_witness :
    (capturePayment [] "2024-01-01" (.error netErr)).snd = true
    ∧ (capturePayment [] "2024-01-01" (.error netErr)).fst =
      .error "[Yoco] Failed to capture payment: down" := by
  have h := capture_authorize_no_local_check [] "2024-01-01" (.error netErr) rfl
  refine ⟨h.1, ?_⟩
  rw [(h.2.2 netErr rfl).1]
  decide

/-- Counterexample for C7: updatePayment discards keys already present in
the input session data — with an input map holding foo, the returned map
no longer holds it. -/
theorem updatePayment_discards_keys :
    (updatePayment
      { amount := 200, currency_code := "ZAR", context := none, data := fooData }
      (.ok sampleCheckout)).fst =
      .ok { data := [("yocoCheckoutId", .str "co1"), ("redirectUrl", .str "r"),
                     ("status", .str "created")] }
    ∧ getKey fooData "foo" = some (.str "bar")
    ∧ getKey [(("yocoCheckoutId" : String), JsonVal.str "co1"),
              ("redirectUrl", JsonVal.str "r"),
              ("status", JsonVal.str "created")] "foo" = none := by
  decide

/-- C7 (amended): every adapter operation that augments and returns the
session data — delete, cancel, authorize, capture, refund and retrieve —
keeps every input key outside its own provider fields with its original
value; initiatePayment and updatePayment instead return a fresh map
holding only provider fields. -/
theorem augmenting_ops_preserve_keys (d : SessionData) (k now uuid : String)
    (amount : Option Int)
    (api : Except YocoPaymentError YocoCheckout)
    (rapi : Except YocoPaymentError YocoRefund) :
    (deletePayment d).data = d
    ∧ (k ≠ "cancelledAt" → getKey (cancelPayment d now).data k = getKey d k)
    ∧ (∀ out, (authorizePayment d api).fst = .ok out → k ≠ "yocoPaymentId" →
        getKey out.data k = getKey d k)
    ∧ (∀ out, (capturePayment d now api).fst = .ok out →
        k ≠ "yocoPaymentId" → k ≠ "capturedAt" →
        getKey out.data k = getKey d k)
    ∧ (∀ out, (refundPayment d amount uuid now rapi).fst = .ok out →
        k ≠ "yocoRefundId" → k ≠ "refundedAmount" → k ≠ "refundedAt" →
        getKey out.data k = getKey d k)
    ∧ (∀ out, (retrievePayment d api).fst = .ok out →
        k ≠ "yocoStatus" → k ≠ "yocoPaymentId" →
        getKey out.data k = getKey d k) := by
  refine ⟨rfl, ?_, ?_, ?_, ?_, ?_⟩
  · intro hk
    exact getKey_setKey_ne d "cancelledAt" k (.str now) hk
  · intro out h hk
    cases api with
    | ok c =>
      simp only [authorizePayment, Except.ok.injEq] at h
      rw [← h]
      exact getKey_setKey_ne d "yocoPaymentId" k (jsonOfOptStr c.paymentId) hk
    | error e => simp [authorizePayment] at h
  · intro out h hk1 hk2
    cases api with
    | ok c =>
      by_cases hc : c.status = "completed"
      · simp only [capturePayment, hc, ne_eq, not_true_eq_false, ite_false,
          Except.ok.injEq] at h
        rw [← h]
        rw [getKey_setKey_ne _ "capturedAt" k _ hk2]
        exact getKey_setKey_ne d "yocoPaymentId" k (jsonOfOptStr c.paymentId) hk1
      · simp [capturePayment, hc] at h
    | error e => simp [capturePayment] at h
  · intro out h hk1 hk2 hk3
    cases hid : storedCheckoutId d with
    | none => simp [refundPayment, hid] at h
    | some v =>
      cases rapi with
      | ok refund =>
        by_cases hs : refund.status = "successful"
        · simp only [refundPayment, hid, hs, ne_eq, not_true_eq_false, ite_false,
            Except.ok.injEq] at h
          rw [← h]
          rw [getKey_setKey_ne _ "refundedAt" k _ hk3]
          rw [getKey_setKey_ne _ "refundedAmount" k _ hk2]
          exact getKey_setKey_ne d "yocoRefundId" k (.str refund.refundId) hk1
        · simp [refundPayment, hid, hs] at h
      | error e => simp [refundPayment, hid] at h
  · intro out h hk1 hk2
    cases hid : storedCheckoutId d with
    | none =>
      simp only [retrievePayment, hid, Except.ok.injEq] at h
      rw [← h]
    | some v =>
      cases api with
      | ok c =>
        simp only [retrievePayment, hid, Except.ok.injEq] at h
        rw [← h]
        rw [getKey_setKey_ne _ "yocoPaymentId" k _ hk2]
        exact getKey_setKey_ne d "yocoStatus" k (.str c.status) hk1
      | error e => simp [retrievePayment, hid] at h

/-- Witness for C7 (amended): a concrete authorize call keeps the foreign
key foo. -/
theorem augmenting_ops_preserve_keys_witness :
    getKey (setKey fooData "yocoPaymentId" (jsonOfOptStr (some "pay_1"))) "foo" =
    getKey fooData "foo" :=
  (augmenting_ops_preserve_keys fooData "foo" "now" "uuid" none
      (.ok completedCheckout) (.error netErr)).2.2.1
    { status := mapStatus "completed",
      data := setKey fooData "yocoPaymentId" (jsonOfOptStr (some "pay_1")) }
    rfl (by decide)

/-- C1 (amended): initiatePayment rejects every amount below 200 cents
with the minimum-amount error; with a valid amount it rejects every
currency whose uppercase form is not ZAR with the currency error; and for
amount 200 with currency ZAR and a successful create-checkout call it
succeeds with the provider fields of the new checkout. -/
theorem initiatePayment_validation (input : InitiatePaymentInput)
    (api : Except YocoPaymentError YocoCheckout) :
    (input.amount < 200 →
      initiatePayment input api = (.error "[Yoco] Minimum amount is R2.00", false))
    ∧ (200 ≤ input.amount → toUpperCase input.currency_code ≠ "ZAR" →
      initiatePayment input api =
        (.error "[Yoco] Only ZAR currency is supported", false))
    ∧ (∀ checkout, input.amount = 200 → input.currency_code = "ZAR" →
      api = .ok checkout →
      initiatePayment input api =
        (.ok { id := checkout.id,
               data := [("yocoCheckoutId", .str checkout.id),
                        ("redirectUrl", .str checkout.redirectUrl),
                        ("status", .str checkout.status)] }, true)) := by
  refine ⟨?_, ?_, ?_⟩
  · intro h; simp [initiatePayment, h]
  · intro h1 h2
    have h1' : ¬ input.amount < 200 := by omega
    simp [initiatePayment, h1', h2]
  · intro checkout h1 h2 h3
    subst h3
    simp [initiatePayment, h1, h2, toUpperCase_ZAR]

/-- Counterexample for C1: the currency comparison uppercases first, so
the lowercase code zar — a currency_code other than ZAR — is accepted and
the call succeeds. -/
theorem initiatePayment_accepts_lowercase_zar :
    ("zar" : String) ≠ "ZAR"
    ∧ (initiatePayment { amount := 200, currency_code := "zar", context := none }
        (.ok sampleCheckout)).fst =
      .ok { id := "co1",
            data := [("yocoCheckoutId", .str "co1"), ("redirectUrl", .str "r"),
                     ("status", .str "created")] } := by
  decide

/-- Witness for C1 (amended): the three validation outcomes at concrete
inputs. -/
theorem initiatePayment_validation_witness :
    initiatePayment { amount := 100, currency_code := "ZAR", context := none }
      (.error netErr) =
      (.error "[Yoco] Minimum amount is R2.00", false)
    ∧ initiatePayment { amount := 1000, currency_code := "USD", context := none }
        (.error netErr) =
      (.error "[Yoco] Only ZAR currency is supported", false)
    ∧ initiatePayment { amount := 200, currency_code := "ZAR", context := none }
        (.ok sampleCheckout) =
      (.ok { id := "co1",
             data := [("yocoCheckoutId", .str "co1"), ("redirectUrl", .str "r"),
                      ("status", .str "created")] }, true) :=
  ⟨(initiatePayment_validation { amount := 100, currency_code := "ZAR", context := none }
      (.error netErr)).1 (by decide),
   (initiatePayment_validation { amount := 1000, currency_code := "USD", context := none }
      (.error netErr)).2.1 (by decide) (by decide),
   (initiatePayment_validation { amount := 200, currency_code := "ZAR", context := none }
      (.ok sampleCheckout)).2.2 sampleCheckout rfl rfl rfl⟩

/-- C4 (amended): the idempotency key of initiatePayment is deterministic
in (session id, resource id, amount); and whenever neither id contains
the separator character, distinct inputs give distinct keys.  (With a
separator inside an id, distinct inputs can collide — see the
counterexample.) -/
theorem initiateIdempotencyKey_deterministic_injective
    (s₁ r₁ : String) (a₁ : Nat) (s₂ r₂ : String) (a₂ : Nat) :
    (s₁ = s₂ → r₁ = r₂ → a₁ = a₂ →
      initiateIdempotencyKey s₁ r₁ a₁ = initiateIdempotencyKey s₂ r₂ a₂)
    ∧ ('-' ∉ s₁.data → '-' ∉ r₁.data → '-' ∉ s₂.data → '-' ∉ r₂.data →
      initiateIdempotencyKey s₁ r₁ a₁ = initiateIdempotencyKey s₂ r₂ a₂ →
      s₁ = s₂ ∧ r₁ = r₂ ∧ a₁ = a₂) := by
  constructor
  · intro h1 h2 h3; rw [h1, h2, h3]
  · intro hs₁ hr₁ hs₂ hr₂ h
    have hd : (initiateIdempotencyKey s₁ r₁ a₁).data =
        (initiateIdempotencyKey s₂ r₂ a₂).data := by rw [h]
    rw [initiateIdempotencyKey_data, initiateIdempotencyKey_data] at hd
    have hd' := List.append_cancel_left hd
    simp only [List.cons.injEq, true_and] at hd'
    obtain ⟨hseq, hrest⟩ := sep_split '-' s₁.data s₂.data _ _ hs₁ hs₂ hd'
    obtain ⟨hreq, hrrest⟩ := sep_split '-' r₁.data r₂.data _ _ hr₁ hr₂ hrest
    exact ⟨String.ext hseq, String.ext hreq, repr_injective (String.ext hrrest)⟩

/-- Counterexample for C4: keys are joined with the separator character,
so two calls differing in session id collide when an id contains the
separator. -/
theorem initiateIdempotencyKey_collision :
    initiateIdempotencyKey "a-b" "" 200 = initiateIdempotencyKey "a" "b-" 200
    ∧ ("a-b" : String) ≠ "a" := by
  decide

/-- Witness for C4 (amended): separator-free ids at a concrete input. -/
theorem initiateIdempotencyKey_witness :
    ('-' ∉ ("sess" : String).data) ∧ ('-' ∉ ("res" : String).data)
    ∧ (("sess" : String) = "sess" ∧ ("res" : String) = "res" ∧ (200 : Nat) = 200) :=
  ⟨by decide, by decide,
   (initiateIdempotencyKey_deterministic_injective "sess" "res" 200 "sess" "res" 200).2
     (by decide) (by decide) (by decide) (by decide) rfl⟩

end Yoco
